import Mathlib

/-!
Verification development for `generate_internal_notes.py`, the internal-events
notes generator.  The Python source is shallowly embedded below: pure helper
functions become Lean functions over a wall-clock `DateTime` model, the CSV
ingestion loop becomes `firstPass` over structured rows, and the per-event
note-generation loop (which mutates shared event dictionaries in place)
becomes `processLoop`, an explicit state fold.  All definitions are written
with structural recursion only, so every theorem below can be settled by
kernel evaluation on concrete inputs.
-/

namespace InternalNotes

/-- Wall-clock instant: calendar date plus minute-of-day.  Models a Python
`datetime` as produced by the script's parsers (seconds and microseconds are
always zero there). -/
structure DateTime where
  year  : Nat
  month : Nat
  day   : Nat
  mins  : Nat
deriving DecidableEq, Repr

/-- `datetime.hour`. -/
def hourOf (t : DateTime) : Nat := t.mins / 60

/-- `datetime.date()` as a comparable triple. -/
def dateOf (t : DateTime) : Nat × Nat × Nat := (t.year, t.month, t.day)

/-- `datetime.replace(hour=h, minute=mi)` (seconds already zero). -/
def withTime (t : DateTime) (h mi : Nat) : DateTime := { t with mins := h * 60 + mi }

/-- Python `<` on datetimes: lexicographic on (year, month, day, time). -/
@[reducible] def dtLt (a b : DateTime) : Prop :=
  a.year < b.year ∨ (a.year = b.year ∧ (a.month < b.month ∨ (a.month = b.month ∧
    (a.day < b.day ∨ (a.day = b.day ∧ a.mins < b.mins)))))

/-- Python `<=` on datetimes. -/
@[reducible] def dtLe (a b : DateTime) : Prop := dtLt a b ∨ a = b

def isLeap (y : Nat) : Bool := y % 4 == 0 && (y % 100 != 0 || y % 400 == 0)

def daysInMonth (y m : Nat) : Nat :=
  if m == 2 then (if isLeap y then 29 else 28)
  else if m == 4 || m == 6 || m == 9 || m == 11 then 30
  else 31

def nextDateOf (t : DateTime) : Nat × Nat × Nat :=
  if t.day < daysInMonth t.year t.month then (t.year, t.month, t.day + 1)
  else if t.month < 12 then (t.year, t.month + 1, 1)
  else (t.year + 1, 1, 1)

def prevDateOf (t : DateTime) : Nat × Nat × Nat :=
  if 1 < t.day then (t.year, t.month, t.day - 1)
  else if 1 < t.month then (t.year, t.month - 1, daysInMonth t.year (t.month - 1))
  else (t.year - 1, 12, 31)

/-- `t + timedelta(minutes=k)` for `k ≤ 1440` (the only uses in the script are
15, 120 and 1440 minutes, so at most one day boundary is crossed). -/
def addMinutes (t : DateTime) (k : Nat) : DateTime :=
  if t.mins + k < 1440 then { t with mins := t.mins + k }
  else
    let p := nextDateOf t
    { year := p.1, month := p.2.1, day := p.2.2, mins := t.mins + k - 1440 }

/-- `t - timedelta(minutes=k)` for `k ≤ 1440`. -/
def subMinutes (t : DateTime) (k : Nat) : DateTime :=
  if k ≤ t.mins then { t with mins := t.mins - k }
  else
    let p := prevDateOf t
    { year := p.1, month := p.2.1, day := p.2.2, mins := t.mins + 1440 - k }

/-- `t + timedelta(days=1)`. -/
def addDays1 (t : DateTime) : DateTime :=
  let p := nextDateOf t
  { year := p.1, month := p.2.1, day := p.2.2, mins := t.mins }

/-- Day count since 0000-03-01 (civil-calendar conversion), used only to
compute the weekday. -/
def daysFromCivil (y m d : Nat) : Nat :=
  let y2 := if m ≤ 2 then y - 1 else y
  let era := y2 / 400
  let yoe := y2 % 400
  let mp := (m + 9) % 12
  let doy := (153 * mp + 2) / 5 + d - 1
  let doe := yoe * 365 + yoe / 4 - yoe / 100 + doy
  era * 146097 + doe

/-- Python `datetime.weekday()`: Monday = 0 … Sunday = 6. -/
def weekdayOf (t : DateTime) : Nat := (daysFromCivil t.year t.month t.day + 2) % 7

/-! ### String helpers

Core `String` routines such as `splitOn`, `replace`, `map` and `trim` are
position-based (well-founded recursion), which the kernel cannot unfold, so
structural equivalents over the underlying character list are used instead. -/

/-- Is `pat` a contiguous substring of `l`?  (Python `pat in s`.) -/
def listInfixOf (pat : List Char) : List Char → Bool
  | [] => pat.isEmpty
  | c :: rest => pat.isPrefixOf (c :: rest) || listInfixOf pat rest

/-- Python `pat in s` on strings (for non-empty `pat`). -/
def strContains (s pat : String) : Bool := listInfixOf pat.data s.data

/-- Python `s.startswith(pat)`. -/
def strStarts (s pat : String) : Bool := pat.data.isPrefixOf s.data

def charUp (c : Char) : Char := c.toUpper

def charDown (c : Char) : Char := c.toLower

/-- Python `s.upper()` (ASCII, which is all the script's data uses). -/
def strUp (s : String) : String := String.mk (s.data.map charUp)

/-- Python `s.lower()`. -/
def strDown (s : String) : String := String.mk (s.data.map charDown)

def isWs (c : Char) : Bool := c == ' ' || c == '\t' || c == '\n' || c == '\r'

/-- Python `s.strip()`. -/
def strTrim (s : String) : String :=
  String.mk ((((s.data.dropWhile isWs).reverse).dropWhile isWs).reverse)

/-- Python `s.lstrip(c)`: drop every leading occurrence of `c`. -/
def strLstripChar (s : String) (c : Char) : String :=
  String.mk (s.data.dropWhile (fun x => x == c))

/-- Fuel-driven core of Python `s.replace(pat, rep)` (left-to-right,
non-overlapping, `pat` non-empty at every call site). -/
def replaceAux (pat rep : List Char) : Nat → List Char → List Char
  | 0, l => l
  | _ + 1, [] => []
  | fuel + 1, c :: rest =>
    if pat.isPrefixOf (c :: rest) then
      rep ++ replaceAux pat rep fuel ((c :: rest).drop pat.length)
    else
      c :: replaceAux pat rep fuel rest

/-- Python `s.replace(pat, rep)`. -/
def strReplace (s pat rep : String) : String :=
  String.mk (replaceAux pat.data rep.data (s.data.length + 1) s.data)

/-- Join a list of strings with a separator (Python `sep.join(l)`). -/
def joinSep (sep : String) : List String → String
  | [] => ""
  | [x] => x
  | x :: y :: xs => x ++ sep ++ joinSep sep (y :: xs)

/-- Maximal runs of characters satisfying `p` (Python `re.findall` with a
character-class-plus pattern). -/
def runsByAux (p : Char → Bool) : List Char → List Char → List (List Char)
  | [], acc => if acc.isEmpty then [] else [acc.reverse]
  | c :: cs, acc =>
    if p c then runsByAux p cs (c :: acc)
    else if acc.isEmpty then runsByAux p cs []
    else acc.reverse :: runsByAux p cs []

def runsBy (p : Char → Bool) (l : List Char) : List (List Char) := runsByAux p l []

/-- Two-digit zero-padded decimal (`strftime` `%m`, `%d`, `%I`, `%M`). -/
def pad2 (n : Nat) : String := if n < 10 then "0" ++ toString n else toString n

/-- Four-digit zero-padded decimal (`strftime` `%Y`). -/
def pad4 (n : Nat) : String :=
  if n < 10 then "000" ++ toString n
  else if n < 100 then "00" ++ toString n
  else if n < 1000 then "0" ++ toString n
  else toString n

/-- `strftime('%Y-%m-%d')`. -/
def isoDate (t : DateTime) : String := pad4 t.year ++ "-" ++ pad2 t.month ++ "-" ++ pad2 t.day

def monthNameFull (m : Nat) : String :=
  match m with
  | 1 => "January" | 2 => "February" | 3 => "March" | 4 => "April"
  | 5 => "May" | 6 => "June" | 7 => "July" | 8 => "August"
  | 9 => "September" | 10 => "October" | 11 => "November" | 12 => "December"
  | _ => ""

/-- The script's `DAY_NAMES` table (indexed by `weekday()`). -/
def dayNameOf (w : Nat) : String :=
  match w with
  | 0 => "Monday" | 1 => "Tuesday" | 2 => "Wednesday" | 3 => "Thursday"
  | 4 => "Friday" | 5 => "Saturday" | _ => "Sunday"

/-- 12-hour clock hour for `strftime('%I')` (01–12). -/
def hour12 (t : DateTime) : Nat :=
  let h := hourOf t % 12
  if h = 0 then 12 else h

/-- `strftime('%I:%M %p')`. -/
def strfIMp (t : DateTime) : String :=
  pad2 (hour12 t) ++ ":" ++ pad2 (t.mins % 60) ++ " " ++
    (if hourOf t < 12 then "AM" else "PM")

/-! ### Configuration tables and constants (module-level data in the script) -/

def WORK_START : Nat := 8
def WORK_END : Nat := 20
def DEFAULT_SETUP_HOURS : Nat := 2
def DEFAULT_SETUP_MINS : Nat := 60 * DEFAULT_SETUP_HOURS

/-- The `VENUE_CODES` dictionary, in insertion order (the matching loop
iterates it in this order and returns the first hit). -/
def VENUE_CODES : List (String × String) := [
  ("UCC Tech Flex Space A", "UCCA"),
  ("UCC Tech Flex Space B", "UCCB"),
  ("UCC Tech Flex Space C", "UCCC"),
  ("UCC 106", "UCCG"),
  ("UCC The Commons", "UCCCOMMONS"),
  ("UCC 1st Floor Lobby", "UCCLOBBY"),
  ("UCC Pi Kitchen", "UCCPI"),
  ("UCC Pre-function", "UCCPRE"),
  ("Babbio 100", "BC100"),
  ("Babbio 104", "BC104"),
  ("Babbio 122", "BC122"),
  ("Babbio 202", "BC202"),
  ("Babbio 203", "BC203"),
  ("Babbio 210", "BC210"),
  ("Babbio 212", "BC212"),
  ("Babbio 219", "BC219"),
  ("Babbio 220", "BC220"),
  ("Babbio 221", "BC221"),
  ("Babbio 304", "BC304"),
  ("Babbio 310", "BC310"),
  ("Babbio 312", "BC312"),
  ("Babbio 319", "BC319"),
  ("Babbio 320", "BC320"),
  ("Babbio 321", "BC321"),
  ("Babbio East Patio", "BCEASTPATIO"),
  ("Howe 102", "HOWE102"),
  ("Howe 104", "HOWE104"),
  ("Howe 303", "HOWE303"),
  ("Howe 404", "SKYLINE"),
  ("Howe 409", "BISSINGER"),
  ("Howe 1017", "HOWE1017"),
  ("Howe 4th Floor", "HOWE4"),
  ("Walker Gym", "WALKERGYM"),
  ("Walker 102", "WALKER102"),
  ("Gateway South", "GWS"),
  ("Gateway North", "GWN"),
  ("Schaefer Swimming Pool", "SCHPOOL"),
  ("Schaefer Wrestling Room", "SCHWRESTLING"),
  ("Schaefer Canavan Arena", "SCHCANAVAN"),
  ("Schaefer Athletic Training", "SCHATC"),
  ("Schaefer DeBaun Field", "SCHFIELD"),
  ("Schaefer 309", "SCH309"),
  ("DeBaun Auditorium", "DEBAUN"),
  ("Burchard", "BURCH"),
  ("Carnegie", "CARN"),
  ("Edwin A. Stevens", "EAS"),
  ("McLean", "MCLEAN"),
  ("Morton", "MORTON"),
  ("Peirce", "PEIRCE"),
  ("North Building", "NORTH"),
  ("Martha Bayard Stevens", "MBS"),
  ("Griffith", "GRIFF"),
  ("Library", "LIB"),
  ("Kidde", "KIDDE")]

/-- The `SETUP_LABELS` dictionary, in insertion order. -/
def SETUP_LABELS : List (String × String) := [
  ("UCCA", "TechFlex"),
  ("UCCB", "TechFlex"),
  ("UCCC", "TechFlex"),
  ("UCCABC", "TechFlex"),
  ("UCCPI", "TechFlex"),
  ("UCC Tech Flex", "TechFlex"),
  ("UCC Pi Kitchen", "TechFlex"),
  ("UCCG", "Gallery"),
  ("UCC 106", "Gallery"),
  ("The Gallery", "Gallery"),
  ("BCEASTPATIO", "Babbio East Patio"),
  ("Babbio East Patio", "Babbio East Patio"),
  ("SKYLINE", "Skyline"),
  ("Howe 404", "Skyline"),
  ("Skyline", "Skyline"),
  ("BISSINGER", "Bissinger"),
  ("Howe 409", "Bissinger"),
  ("Howe 4th Floor", "Bissinger"),
  ("Bissinger", "Bissinger")]

/-! ### Venue resolution (`get_venue_code`, `get_setup_label`) -/

/-- Fallback code derivation in `get_venue_code`: first letters of up to four
alphabetic words, plus the first digit run, capped at 8 characters. -/
def fallbackCode (location : String) : String :=
  let words := runsBy Char.isAlpha location.data
  if words.isEmpty then "VENUE"
  else
    let code0 : String := String.mk ((words.take 4).map (fun w => charUp (w.headD 'A')))
    let code : String :=
      match runsBy Char.isDigit location.data with
      | [] => code0
      | n :: _ => code0 ++ String.mk n
    if 8 < code.data.length then String.mk (code.data.take 8) else code

/-- `get_venue_code(location)`: first `VENUE_CODES` entry whose key occurs in
(or prefixes) the upper-cased location, else the derived fallback code. -/
def get_venue_code (location : String) : String :=
  if location = "" then "UNKNOWN"
  else
    let lu := strUp location
    match VENUE_CODES.find? (fun p => strContains lu (strUp p.1) || strStarts lu (strUp p.1)) with
    | some p => p.2
    | none => fallbackCode location

/-- `get_setup_label(location, venue_code)`: exact venue-code key lookup, then
case-insensitive substring match on the location, then the literal "Setup". -/
def get_setup_label (location : String) (venue_code : String) : String :=
  match SETUP_LABELS.find? (fun p => p.1 == venue_code) with
  | some p => p.2
  | none =>
    if location ≠ "" then
      match SETUP_LABELS.find? (fun p => strContains (strDown location) (strDown p.1)) with
      | some p => p.2
      | none => "Setup"
    else "Setup"

/-! ### Reservation number -/

/-- `get_am_pm(dt)`. -/
def get_am_pm (dt : DateTime) : String := if hourOf dt < 12 then "AM" else "PM"

/-- `generate_reservation_number(event_date, venue_code, start_time)`:
`strftime("%m%d")` of the event date, then the venue code, then AM/PM of the
start time, with no separators. -/
def generate_reservation_number (event_date : DateTime) (venue_code : String)
    (start_time : DateTime) : String :=
  pad2 event_date.month ++ pad2 event_date.day ++ venue_code ++ get_am_pm start_time

/-- Modelled from the spec: the reservation-identifier template of §6 —
"two-digit month, two-digit day, venue code, then AM or PM according to
whether the start instant precedes noon, with no separators".  Stated
separately from `generate_reservation_number` so the code can be proved to
refine the spec's template. -/
def specReservationIdentifier (event_date : DateTime) (venue_code : String)
    (start_time : DateTime) : String :=
  pad2 event_date.month ++ pad2 event_date.day ++ venue_code ++
    (if start_time.mins < 720 then "AM" else "PM")

/-! ### Date/time parsing (`parse_datetime`)

The regex layer is abstracted into an inductive describing which of the
supported literal forms the raw text matches; each constructor carries the
field values `strptime` extracts.  `unmatchedText` covers any text matching
none of the forms (including ones where a regex matches but `strptime`
rejects the fields and every later pattern also fails). -/

inductive DTText where
  /-- Empty or whitespace-only text. -/
  | emptyText
  /-- "Mon D, YYYY H:MM AM - H:MM AM" (pattern 1): one date, two times. -/
  | sameDayRange (y m d : Nat) (startMins endMins : Nat)
  /-- "Mon D, YYYY H:MM PM - Mon D, YYYY H:MM AM" (pattern 1b): a full date on
  each side of the range. -/
  | crossRange (y1 m1 d1 : Nat) (startMins : Nat) (y2 m2 d2 : Nat) (endMins : Nat)
  /-- "D-Mon-YY" (pattern 2), year resolved by `%y`. -/
  | shortDate (y m d : Nat)
  /-- "Mon D, YYYY" (pattern 3). -/
  | longDate (y m d : Nat)
  /-- Text matching none of the supported forms. -/
  | unmatchedText
deriving DecidableEq, Repr

/-- `parse_datetime`: returns `(start, end)`; date-only forms yield the same
midnight instant twice; unmatched text yields `(None, None)` (no exception is
raised — the function is total). -/
def parse_datetime : DTText → Option DateTime × Option DateTime
  | .emptyText => (none, none)
  | .sameDayRange y m d s e => (some ⟨y, m, d, s⟩, some ⟨y, m, d, e⟩)
  | .crossRange y1 m1 d1 s y2 m2 d2 e => (some ⟨y1, m1, d1, s⟩, some ⟨y2, m2, d2, e⟩)
  | .shortDate y m d => (some ⟨y, m, d, 0⟩, some ⟨y, m, d, 0⟩)
  | .longDate y m d => (some ⟨y, m, d, 0⟩, some ⟨y, m, d, 0⟩)
  | .unmatchedText => (none, none)

/-! ### Event records

A `RawRow` is one CSV row after the column-matching step of `process_csv` has
extracted its fields (that flexible header scan contains no scheduling logic
and is kept outside the embedding boundary).  An `EventData` is one
`event_data` dictionary; `idx` records which row created it and models Python
object identity (`id()`), since each row builds a fresh dictionary. -/

structure RawRow where
  event_name : String
  location : String
  date_time : DTText
  setup_requirements : Option String
  process_event : Option String
deriving DecidableEq, Repr

def PLACEHOLDER : String := "[Setup requirements not specified in CSV]"

structure EventData where
  idx : Nat
  event_name : String
  location : String
  start_time : Option DateTime
  end_time : Option DateTime
  setup_requirements : String
  process_event : Option String
deriving DecidableEq, Repr

def defEvent : EventData :=
  { idx := 0, event_name := "", location := "", start_time := none,
    end_time := none, setup_requirements := "", process_event := none }

instance : Inhabited EventData := ⟨defEvent⟩

/-- `process_event and process_event.strip().upper() == 'YES'`. -/
def flaggedYes (r : RawRow) : Bool :=
  match r.process_event with
  | some s => strUp (strTrim s) == "YES"
  | none => false

/-- Build one `event_data` dictionary (the `setup_requirements or '[...]'`
fallback turns a missing or empty value into the placeholder). -/
def mkEvent (k : Nat) (r : RawRow) (st et : Option DateTime) : EventData :=
  { idx := k, event_name := r.event_name, location := r.location,
    start_time := st, end_time := et,
    setup_requirements :=
      (match r.setup_requirements with
       | some s => if s = "" then PLACEHOLDER else s
       | none => PLACEHOLDER),
    process_event := r.process_event }

/-- First pass of `process_csv`: parse every row and keep only rows whose
parsed start time is non-null (`if start_time:`); flagged rows additionally
go to the `events` list.  Returns `(all_events, events)`. -/
def firstPassFrom (k : Nat) : List RawRow → List EventData × List EventData
  | [] => ([], [])
  | r :: rs =>
    match (parse_datetime r.date_time).1 with
    | some _ =>
      let ed := mkEvent k r (parse_datetime r.date_time).1 (parse_datetime r.date_time).2
      (ed :: (firstPassFrom (k + 1) rs).1,
       if flaggedYes r then ed :: (firstPassFrom (k + 1) rs).2 else (firstPassFrom (k + 1) rs).2)
    | none => firstPassFrom (k + 1) rs

def firstPass (rows : List RawRow) : List EventData × List EventData :=
  firstPassFrom 0 rows

/-! ### Scheduling rule engine (`calculate_setup_time`, `calculate_breakdown_time`) -/

/-- The lunch-break adjustment inside `calculate_setup_time`: an instant in
hour 12, or one whose two-hour setup span would cross into the afternoon, is
moved to 11:00. -/
def lunchAdjust (t : DateTime) : DateTime :=
  if hourOf t = 12 then withTime t 11 0
  else if hourOf t < 12 ∧ 12 < hourOf (addMinutes t DEFAULT_SETUP_MINS) then withTime t 11 0
  else t

/-- The work-hours clamp inside `calculate_setup_time`: an instant before
8:00, or at or after 20:00, is replaced by 8:00 on the same date. -/
def workClamp (t : DateTime) : DateTime :=
  if hourOf t < WORK_START then withTime t WORK_START 0
  else if WORK_END ≤ hourOf t then withTime t WORK_START 0
  else t

/-- The setup instant before the conflict scan: two hours before the event
start, lunch-adjusted, then clamped to work hours. -/
def setupPre (event_start : DateTime) : DateTime :=
  workClamp (lunchAdjust (subMinutes event_start DEFAULT_SETUP_MINS))

/-- One iteration of the conflict loop in `calculate_setup_time`: a context
event with both times whose end lies on the event date, before the event
start and after the current setup instant moves the setup to that end plus a
15-minute buffer. -/
def conflictStep (event_start : DateTime) (st : DateTime) (o : EventData) : DateTime :=
  match o.end_time, o.start_time with
  | some oe, some _ =>
    if dateOf oe = dateOf event_start ∧ dtLt oe event_start ∧ dtLt st oe then
      addMinutes oe 15
    else st
  | _, _ => st

/-- `calculate_setup_time(event_start, same_venue_events)`. -/
def calculate_setup_time (event_start : DateTime) (same_venue_events : List EventData) :
    DateTime :=
  same_venue_events.foldl (conflictStep event_start) (setupPre event_start)

/-- The scan over subsequent events in `calculate_breakdown_time`: the first
context event starting later the same day determines the result (end plus 15
minutes, pulled back to the end itself with a note if that would reach the
next event's start). -/
def breakdownLoop (event_end : DateTime) : List EventData → DateTime × String
  | [] => (event_end, "")
  | o :: rest =>
    match o.start_time with
    | some os =>
      if dateOf os = dateOf event_end ∧ dtLt event_end os then
        let bt := addMinutes event_end 15
        if dtLe os bt then (event_end, "(Before next event at " ++ strfIMp os ++ ")")
        else (bt, "")
      else breakdownLoop event_end rest
    | none => breakdownLoop event_end rest

/-- `calculate_breakdown_time(event_end, same_venue_events)`: an event ending
at or after 20:00 is broken down the next calendar day at 10:00; otherwise
the subsequent-event scan applies, defaulting to immediate breakdown. -/
def calculate_breakdown_time (event_end : DateTime) (same_venue_events : List EventData) :
    DateTime × String :=
  if WORK_END ≤ hourOf event_end then (withTime (addDays1 event_end) 10 0, "")
  else breakdownLoop event_end same_venue_events

/-! ### Note rendering -/

/-- `format_datetime_for_notes(dt)` (the script only calls it with
`include_time=True`).  The `lstrip("0").replace(" 0", " ")` post-processing of
the strftime output is reproduced verbatim. -/
def format_datetime_for_notes (dt : DateTime) : String :=
  let timeStr := strReplace (strLstripChar (strfIMp dt) '0') " 0" " "
  dayNameOf (weekdayOf dt) ++ ", " ++ monthNameFull dt.month ++ " " ++
    toString dt.day ++ ", at " ++ timeStr

/-- The non-error branch of `generate_internal_notes`: the five note lines
joined by newlines. -/
def notesBody (event : EventData) (venue_code : String) (same_venue_events : List EventData)
    (st et : DateTime) : String :=
  let reservation_number := generate_reservation_number st venue_code st
  let setup_time := calculate_setup_time st same_venue_events
  let bd := calculate_breakdown_time et same_venue_events
  let setup_label := get_setup_label event.location venue_code
  "Account Number: __________" ++ "\n" ++
  "Reservation Number: " ++ reservation_number ++ "\n" ++
  "Please set up on " ++ format_datetime_for_notes setup_time ++ "\n" ++
  setup_label ++ ": " ++ event.setup_requirements ++ "\n" ++
  "Please break down on " ++ format_datetime_for_notes bd.1 ++
    (if bd.2 ≠ "" then " " ++ bd.2 else "")

/-- `generate_internal_notes(event, venue_code, same_venue_events)`: events
with a missing start or end time take the error branch. -/
def generate_internal_notes (event : EventData) (venue_code : String)
    (same_venue_events : List EventData) : String :=
  match event.start_time, event.end_time with
  | some st, some et => notesBody event venue_code same_venue_events st et
  | _, _ => "# ERROR: Could not parse date/time for event: " ++ event.event_name ++ "\n"

/-! ### Combined-booking detection (`detect_techflex_abc_booking`) -/

/-- The grouping key: lower-cased stripped event name, underscore, ISO date of
the start time. -/
def eventKeyOf (name : String) (st : DateTime) : String :=
  strDown (strTrim name) ++ "_" ++ isoDate st

/-- Append `e` to the group named `k`, creating the group at the end on first
occurrence (Python `defaultdict` insertion order). -/
def insertGroup (gs : List (String × List EventData)) (k : String) (e : EventData) :
    List (String × List EventData) :=
  match gs with
  | [] => [(k, [e])]
  | (k2, l) :: rest => if k2 == k then (k2, l ++ [e]) :: rest else (k2, l) :: insertGroup rest k e

/-- Which TechFlex sub-space a location names (the `elif` chain: a location
naming several spaces counts only as the first). -/
def classifySpace (loc : String) : Option Nat :=
  if strContains loc "Space A" then some 0
  else if strContains loc "Space B" then some 1
  else if strContains loc "Space C" then some 2
  else none

/-- `spaces == {'A', 'B', 'C'}`. -/
def hasAllSpaces (l : List EventData) : Bool :=
  (l.any (fun e => classifySpace e.location == some 0)) &&
  (l.any (fun e => classifySpace e.location == some 1)) &&
  (l.any (fun e => classifySpace e.location == some 2))

/-- `detect_techflex_abc_booking(events)`: group TechFlex rows (with a parsed
start) by event name and date, keep the groups covering all three spaces. -/
def detect_techflex_abc_booking (events : List EventData) :
    List (String × List EventData) :=
  let groups := events.foldl
    (fun gs e =>
      if strContains e.location "UCC Tech Flex Space" then
        match e.start_time with
        | some st => insertGroup gs (eventKeyOf e.event_name st) e
        | none => gs
      else gs) []
  groups.filter (fun g => hasAllSpaces g.2)

/-! ### The note-generation loop of `process_csv`

The loop mutates shared state: the combined-booking branch rewrites the
representative event's `location` and `setup_requirements` in place, and
those dictionaries are aliased by every later lookup.  The embedding makes
the state explicit: `evs` is the current contents of all event dictionaries
(keyed by `idx`), `done` is `processed_combined`, and `out` collects
`(idx, header + notes)` for each note emitted.  The loop is parameterised by
the processing order (a list of `idx` values); `process_csv` itself uses the
flagged events in input order. -/

def getEv (evs : List EventData) (i : Nat) : EventData :=
  (evs.find? (fun e => e.idx == i)).getD defEvent

def setEv (evs : List EventData) (i : Nat) (e2 : EventData) : List EventData :=
  evs.map (fun e => if e.idx == i then e2 else e)

/-- The per-event grouping key `f"{location}_{start date}"` used by
`venue_date_events`. -/
def venueKeyOf (e : EventData) : String :=
  match e.start_time with
  | some st => e.location ++ "_" ++ isoDate st
  | none => e.location ++ "_"

/-- Conflict context for a non-combined event: the `venue_date_events` bucket
of its location/date key, minus itself by identity.  The bucket membership is
fixed before the loop from the pristine `all_events` (`snapshot`); only the
start/end times of these records are ever read downstream, and the loop never
mutates times, so reading the snapshot records is faithful. -/
def sameVenueEventsFor (snapshot : List EventData) (e : EventData) : List EventData :=
  snapshot.filter (fun e2 => venueKeyOf e2 == venueKeyOf e && e2.idx != e.idx)

/-- The `evt_key` the loop computes for an event (empty when the start time is
missing, which makes `is_combined` false). -/
def loopKeyOf (e : EventData) : String :=
  match e.start_time with
  | some st => eventKeyOf e.event_name st
  | none => ""

/-- Conflict context for a combined booking: for each of the three sub-space
names in turn, every current event whose location contains that name, shares
the date, and is neither the event itself nor a same-named booking.  This
reads the CURRENT state, so an earlier combined booking's rewritten location
is visible here. -/
def techflexCtx (evs : List EventData) (selfIdx : Nat) (selfName : String)
    (selfStart : Option DateTime) : List EventData :=
  (["UCC Tech Flex Space A", "UCC Tech Flex Space B", "UCC Tech Flex Space C"].map
    (fun sp => evs.filter (fun e2 =>
      strContains e2.location sp &&
      (match e2.start_time, selfStart with
       | some a, some b => isoDate a == isoDate b
       | _, _ => false) &&
      e2.idx != selfIdx &&
      strDown (strTrim e2.event_name) != selfName))).flatten

/-- Keep the first occurrence of each string (models `set(...)` iteration; the
loop joins the result with `'; '`). -/
def dedupKeepFirst (l : List String) : List String :=
  l.foldl (fun acc x => if x ∈ acc then acc else acc ++ [x]) []

/-- The header `process_csv` prepends to each note. -/
def eqLine60 : String := String.mk (List.replicate 60 '=')

def headerFor (e : EventData) : String :=
  let dateStr :=
    match e.start_time with
    | some st => monthNameFull st.month ++ " " ++ pad2 st.day ++ ", " ++ pad4 st.year
    | none => ""
  "\n" ++ eqLine60 ++ "\n" ++ "Event: " ++ e.event_name ++ "\n" ++
  "Location: " ++ e.location ++ "\n" ++ "Date: " ++ dateStr ++ "\n" ++ eqLine60 ++ "\n"

structure LoopSt where
  evs : List EventData
  done : List String
  out : List (Nat × String)
deriving Repr

/-- The note emitted for a non-combined event: read the current record, resolve
its venue code, filter the snapshot bucket, render. -/
def elseNote (snapshot : List EventData) (evs : List EventData) (i : Nat) : String :=
  let ev := getEv evs i
  let venue_code := get_venue_code ev.location
  let same_venue_events := sameVenueEventsFor snapshot ev
  headerFor ev ++ generate_internal_notes ev venue_code same_venue_events

/-- One iteration of the note-generation loop for the event with index `i`. -/
def stepBody (snapshot : List EventData) (groups : List (String × List EventData))
    (combinedKeys : List String) (i : Nat) (S : LoopSt) : LoopSt :=
  let ev := getEv S.evs i
  let nameL := strDown (strTrim ev.event_name)
  let evtKey := loopKeyOf ev
  if combinedKeys.contains evtKey then
    if S.done.contains evtKey then S
    else
      let done2 := S.done ++ [evtKey]
      let ev1 := { ev with location := "UCC Tech Flex Space A, B, C (Combined)" }
      let evs1 := setEv S.evs i ev1
      let members := (groups.lookup evtKey).getD []
      let reqs := (members.map (fun m => (getEv evs1 m.idx).setup_requirements)).filter
        (fun r => r ≠ "" ∧ r ≠ PLACEHOLDER)
      let ev2 :=
        if reqs.isEmpty then ev1
        else { ev1 with setup_requirements := joinSep "; " (dedupKeepFirst reqs) }
      let evs2 := setEv evs1 i ev2
      let ctx := techflexCtx evs2 i nameL ev.start_time
      let note := headerFor ev2 ++ generate_internal_notes ev2 "UCCABC" ctx
      { evs := evs2, done := done2, out := S.out ++ [(i, note)] }
  else
    { S with out := S.out ++ [(i, elseNote snapshot S.evs i)] }

/-- The note-generation loop over a given processing order.  `ae` is the
pristine `all_events` snapshot: combined bookings and the conflict buckets
are computed from it before the loop, exactly as in `process_csv`. -/
def processLoop (ae : List EventData) (order : List Nat) : List (Nat × String) :=
  let groups := detect_techflex_abc_booking ae
  let combinedKeys := groups.map (fun g => g.1)
  (order.foldl (fun S i => stepBody ae groups combinedKeys i S)
    { evs := ae, done := [], out := [] }).out

/-- `process_csv`: ingest rows, short-circuit when nothing is flagged, then
run the loop over the flagged events in input order.  Returns the notes and
the flagged event list. -/
def processCsv (rows : List RawRow) : List String × List EventData :=
  let fp := firstPass rows
  if fp.2.isEmpty then (["No events found with Process_Event = YES"], fp.2)
  else ((processLoop fp.1 (fp.2.map (fun e => e.idx))).map (fun p => p.2), fp.2)

/-- A context event that starts later on the same calendar day — the condition
under which the subsequent-event scan of `calculate_breakdown_time` fires. -/
@[reducible] def laterSameDay (o : EventData) (e : DateTime) : Prop :=
  match o.start_time with
  | some os => dateOf os = dateOf e ∧ dtLt e os
  | none => False

instance (o : EventData) (e : DateTime) : Decidable (laterSameDay o e) :=
  match h : o.start_time with
  | some os =>
    decidable_of_iff (dateOf os = dateOf e ∧ dtLt e os) (by simp [laterSameDay, h])
  | none => isFalse (by simp [laterSameDay, h])

def defRow : RawRow :=
  { event_name := "", location := "", date_time := .unmatchedText,
    setup_requirements := none, process_event := none }

/-! ### Concrete inputs used by the claim theorems below -/

/-- A row whose date/time text matches no supported literal form. -/
def rowBad : RawRow :=
  { event_name := "Mystery Event"
    location := "Babbio 210"
    date_time := .unmatchedText
    setup_requirements := none
    process_event := some "YES" }

/-- A well-formed flagged row (same-day range, Tuesday 2026-01-27 9:00–11:00). -/
def rowGood : RawRow :=
  { event_name := "Seminar"
    location := "Babbio 210"
    date_time := .sameDayRange 2026 1 27 540 660
    setup_requirements := some "Podium"
    process_event := some "YES" }

/-- Neighbour ending 10:45, i.e. *within 30 minutes before* the 11:00 setup
instant of a 14:00 event (the spec's back-to-back trigger). -/
def oNear : EventData :=
  { idx := 5
    event_name := "Earlier Event"
    location := "Babbio 210"
    start_time := some ⟨2026, 1, 27, 540⟩
    end_time := some ⟨2026, 1, 27, 645⟩
    setup_requirements := PLACEHOLDER
    process_event := some "NO" }

/-- Neighbour ending 13:30, *after* the computed 11:00 setup instant. -/
def oAfter : EventData := { oNear with idx := 6, end_time := some ⟨2026, 1, 27, 810⟩ }

/-- Neighbour ending 12:15, used against a 14:00 event (C6). -/
def oLunch : EventData := { oNear with idx := 7, end_time := some ⟨2026, 1, 27, 735⟩ }

/-- Neighbour ending 8:30, used against a 9:00 event (C1). -/
def oEarly : EventData :=
  { oNear with
    idx := 8
    start_time := some ⟨2026, 1, 27, 420⟩
    end_time := some ⟨2026, 1, 27, 510⟩ }

/-- A 14:00–16:00 flagged event in Babbio 210 (C5). -/
def evExpo : EventData :=
  { idx := 0
    event_name := "Expo"
    location := "Babbio 210"
    start_time := some ⟨2026, 1, 27, 840⟩
    end_time := some ⟨2026, 1, 27, 960⟩
    setup_requirements := "Tables"
    process_event := some "YES" }

/-- Two same-day events whose locations differ as text but resolve to the same
venue code BC210 (C4). -/
def evA4 : EventData :=
  { idx := 0
    event_name := "Talk One"
    location := "Babbio 210"
    start_time := some ⟨2026, 1, 27, 540⟩
    end_time := some ⟨2026, 1, 27, 630⟩
    setup_requirements := PLACEHOLDER
    process_event := some "YES" }

def evB4 : EventData :=
  { evA4 with
    idx := 1
    event_name := "Talk Two"
    location := "Babbio 210 Hall"
    start_time := some ⟨2026, 1, 27, 700⟩
    end_time := some ⟨2026, 1, 27, 760⟩ }

/-- A booking with exactly the same recorded fields as `evA4` but a distinct
identity (a second physical row). -/
def evD4 : EventData := { evA4 with idx := 3 }

/-- TechFlex batch for C8: two combined bookings (names "X Gala" and "Y Gala")
on the same date; the Space B row of "X Gala" comes first so that it becomes
the combined booking's representative. -/
def rXB : RawRow :=
  { event_name := "X Gala"
    location := "UCC Tech Flex Space B"
    date_time := .sameDayRange 2026 1 27 540 730
    setup_requirements := none
    process_event := some "YES" }

def rXA : RawRow :=
  { rXB with
    location := "UCC Tech Flex Space A"
    date_time := .sameDayRange 2026 1 27 540 720 }

def rXC : RawRow :=
  { rXB with
    location := "UCC Tech Flex Space C"
    date_time := .sameDayRange 2026 1 27 540 600 }

def rYA : RawRow :=
  { event_name := "Y Gala"
    location := "UCC Tech Flex Space A"
    date_time := .sameDayRange 2026 1 27 840 900
    setup_requirements := none
    process_event := some "YES" }

def rYB : RawRow := { rYA with location := "UCC Tech Flex Space B" }
def rYC : RawRow := { rYA with location := "UCC Tech Flex Space C" }

def aeC8 : List EventData := (firstPass [rXB, rXA, rXC, rYA, rYB, rYC]).1

/-- Batch without any combined TechFlex booking, for the C8 witness. -/
def evW0 : EventData :=
  { idx := 0
    event_name := "Morning Seminar"
    location := "Babbio 104"
    start_time := some ⟨2026, 1, 27, 600⟩
    end_time := some ⟨2026, 1, 27, 720⟩
    setup_requirements := PLACEHOLDER
    process_event := some "YES" }

def evW1 : EventData :=
  { evW0 with
    idx := 1
    event_name := "Afternoon Seminar"
    start_time := some ⟨2026, 1, 27, 780⟩
    end_time := some ⟨2026, 1, 27, 840⟩ }

/-- The three TechFlex sub-space rows with *different* recorded times (the
Space C row runs 13:00–14:00 while A and B run 9:00–11:00), used to refute
merge commutativity. -/
def cRowA : RawRow :=
  { event_name := "Gala"
    location := "UCC Tech Flex Space A"
    date_time := .sameDayRange 2026 1 27 540 660
    setup_requirements := some "Chairs"
    process_event := some "YES" }

def cRowB : RawRow := { cRowA with location := "UCC Tech Flex Space B" }

def cRowC : RawRow :=
  { cRowA with
    location := "UCC Tech Flex Space C"
    date_time := .sameDayRange 2026 1 27 780 840 }

/-- The three sub-space rows identical apart from their location. -/
def iRowA : RawRow := cRowA
def iRowB : RawRow := { cRowA with location := "UCC Tech Flex Space B" }
def iRowC : RawRow := { cRowA with location := "UCC Tech Flex Space C" }

/-- The same rows with only Space A flagged for processing. -/
def iRowBN : RawRow := { iRowB with process_event := some "NO" }
def iRowCN : RawRow := { iRowC with process_event := some "NO" }

/-! ## Helper lemmas -/

set_option maxRecDepth 8000

theorem year_mk (y m d mi : Nat) : (DateTime.mk y m d mi).year = y := rfl
theorem month_mk (y m d mi : Nat) : (DateTime.mk y m d mi).month = m := rfl
theorem day_mk (y m d mi : Nat) : (DateTime.mk y m d mi).day = d := rfl
theorem mins_mk (y m d mi : Nat) : (DateTime.mk y m d mi).mins = mi := rfl

theorem dateOf_withTime (t : DateTime) (h mi : Nat) : dateOf (withTime t h mi) = dateOf t := rfl

theorem mins_withTime (t : DateTime) (h mi : Nat) : (withTime t h mi).mins = h * 60 + mi := rfl

theorem subMinutes_of_le {t : DateTime} {k : Nat} (h : k ≤ t.mins) :
    subMinutes t k = { t with mins := t.mins - k } := by
  unfold subMinutes
  rw [if_pos h]

theorem lunchAdjust_hour12 {t : DateTime} (h : hourOf t = 12) :
    lunchAdjust t = withTime t 11 0 := by
  unfold lunchAdjust
  rw [if_pos h]

theorem workClamp_of_mid (t : DateTime) (h1 : ¬ hourOf t < 8) (h2 : ¬ 20 ≤ hourOf t) :
    workClamp t = t := by
  unfold workClamp WORK_START WORK_END
  rw [if_neg h1, if_neg h2]

theorem hourOf_withTime (t : DateTime) (h mi : Nat) :
    hourOf (withTime t h mi) = (h * 60 + mi) / 60 := rfl

/-- The lunch adjustment never returns an instant in hour 12. -/
theorem lunchAdjust_hour_ne12 (t : DateTime) : hourOf (lunchAdjust t) ≠ 12 := by
  unfold lunchAdjust
  split_ifs with a b
  · rw [hourOf_withTime]
    omega
  · rw [hourOf_withTime]
    omega
  · exact a

/-- The work-hours clamp preserves "not in hour 12". -/
theorem workClamp_hour_ne12 (t : DateTime) (h : hourOf t ≠ 12) :
    hourOf (workClamp t) ≠ 12 := by
  unfold workClamp WORK_START WORK_END
  split_ifs with a b
  · rw [hourOf_withTime]
    omega
  · rw [hourOf_withTime]
    omega
  · exact h

/-- Under equal calendar dates, the Python datetime order is the time order. -/
theorem dtLt_of_date_eq {a b : DateTime} (h : dateOf a = dateOf b) :
    dtLt a b ↔ a.mins < b.mins := by
  obtain ⟨y1, m1, d1, t1⟩ := a
  obtain ⟨y2, m2, d2, t2⟩ := b
  simp only [dateOf, Prod.mk.injEq] at h
  obtain ⟨h1, h2, h3⟩ := h
  subst h1; subst h2; subst h3
  simp [dtLt]

theorem dateOf_addMinutes {t : DateTime} {k : Nat} (h : t.mins + k < 1440) :
    dateOf (addMinutes t k) = dateOf t ∧ (addMinutes t k).mins = t.mins + k := by
  simp [addMinutes, if_pos h, dateOf]

/-- For a start between 02:00 and 10:00 the pre-conflict setup instant is
exactly 08:00 on the event date: the raw two-hour lead lands at or before
08:00, the lunch branch cannot fire, and the work-hours clamp raises it. -/
theorem setupPre_early (s : DateTime) (h1 : 120 ≤ s.mins) (h2 : s.mins ≤ 600) :
    setupPre s = withTime s 8 0 := by
  obtain ⟨y, m, d, mi⟩ := s
  simp only [DateTime.mins] at h1 h2
  simp only [setupPre, lunchAdjust, workClamp, subMinutes, addMinutes, hourOf, withTime,
    DEFAULT_SETUP_MINS, DEFAULT_SETUP_HOURS, WORK_START, WORK_END, if_pos h1]
  split_ifs <;> simp_all <;> omega

/-- One conflict step keeps the setup instant on the event date and at or
after 08:00, provided the event starts by 10:00. -/
theorem conflictStep_early (s : DateTime) (h2 : s.mins ≤ 600) (st : DateTime) (o : EventData)
    (hd : dateOf st = dateOf s) (hm : 480 ≤ st.mins) :
    dateOf (conflictStep s st o) = dateOf s ∧ 480 ≤ (conflictStep s st o).mins := by
  unfold conflictStep
  cases he : o.end_time with
  | none => exact ⟨hd, hm⟩
  | some oe =>
    cases hs : o.start_time with
    | none => exact ⟨hd, hm⟩
    | some os =>
      dsimp only
      split_ifs with hcond
      · obtain ⟨hde, hlt1, hlt2⟩ := hcond
        have hb1 : oe.mins < s.mins := (dtLt_of_date_eq hde).mp hlt1
        have hb2 : st.mins < oe.mins := (dtLt_of_date_eq (by rw [hd, ← hde])).mp hlt2
        have hlt3 : oe.mins + 15 < 1440 := by omega
        obtain ⟨ha, hb⟩ := dateOf_addMinutes hlt3
        exact ⟨by rw [ha, hde], by omega⟩
      · exact ⟨hd, hm⟩

theorem conflictFold_early (s : DateTime) (h2 : s.mins ≤ 600) (ctx : List EventData) :
    ∀ st : DateTime, dateOf st = dateOf s → 480 ≤ st.mins →
      dateOf (ctx.foldl (conflictStep s) st) = dateOf s ∧
      480 ≤ (ctx.foldl (conflictStep s) st).mins := by
  induction ctx with
  | nil => intro st hd hm; exact ⟨hd, hm⟩
  | cons o rest ih =>
    intro st hd hm
    simp only [List.foldl_cons]
    obtain ⟨ha, hb⟩ := conflictStep_early s h2 st o hd hm
    exact ih _ ha hb

/-- An event starting exactly at 08:00 leaves no room for a conflicting end
strictly between the setup instant and the start, so the fold is frozen. -/
theorem conflictFold_frozen (s : DateTime) (hs : s.mins = 480) (ctx : List EventData) :
    ctx.foldl (conflictStep s) (withTime s 8 0) = withTime s 8 0 := by
  induction ctx with
  | nil => rfl
  | cons o rest ih =>
    simp only [List.foldl_cons]
    have hstep : conflictStep s (withTime s 8 0) o = withTime s 8 0 := by
      unfold conflictStep
      cases he : o.end_time with
      | none => rfl
      | some oe =>
        cases hso : o.start_time with
        | none => rfl
        | some os =>
          dsimp only
          rw [if_neg]
          intro hcond
          obtain ⟨hde, hlt1, hlt2⟩ := hcond
          have hb1 : oe.mins < s.mins := (dtLt_of_date_eq hde).mp hlt1
          have hb2 : (withTime s 8 0).mins < oe.mins :=
            (dtLt_of_date_eq (by rw [dateOf_withTime, ← hde])).mp hlt2
          rw [mins_withTime] at hb2
          omega
    rw [hstep]
    exact ih

/-- The subsequent-event scan returns `(end, "")` when no context event
starts later the same day. -/
theorem breakdownLoop_idle (e : DateTime) (ctx : List EventData)
    (hq : ∀ o ∈ ctx, ¬ laterSameDay o e) : breakdownLoop e ctx = (e, "") := by
  induction ctx with
  | nil => rfl
  | cons o rest ih =>
    have ho := hq o (List.mem_cons_self o rest)
    have htail : ∀ o2 ∈ rest, ¬ laterSameDay o2 e :=
      fun o2 h2 => hq o2 (List.mem_cons_of_mem o h2)
    unfold breakdownLoop
    cases hso : o.start_time with
    | none => exact ih htail
    | some os =>
      dsimp only
      rw [if_neg]
      · exact ih htail
      · intro hcond
        exact ho (by simp [laterSameDay, hso]; exact hcond)

/-! ## Claim C1 -/

/-- Claim C1, counterexample.  An event starting at 08:00 (Tuesday 2026-01-27)
with empty conflict context receives setup at 08:00 on the event date — the
work-start clamp — not at a 06:00 early-overtime instant; and for an event
starting 09:00 a conflicting event ending 08:30 *does* move the setup
instant (to 08:45), so setup for starts at or before 10:00 is not conflict
immune. -/
theorem C1_cex :
    calculate_setup_time ⟨2026, 1, 27, 480⟩ [] = ⟨2026, 1, 27, 480⟩ ∧
    hourOf (calculate_setup_time ⟨2026, 1, 27, 480⟩ []) ≠ 6 ∧
    calculate_setup_time ⟨2026, 1, 27, 480⟩ [] ≠ withTime ⟨2026, 1, 27, 480⟩ 6 0 ∧
    calculate_setup_time ⟨2026, 1, 27, 540⟩ [oEarly] = ⟨2026, 1, 27, 525⟩ ∧
    calculate_setup_time ⟨2026, 1, 27, 540⟩ [] = ⟨2026, 1, 27, 480⟩ := by
  decide

/-- Claim C1, amended.  For every event starting between 02:00 and 10:00
inclusive, `calculate_setup_time` keeps the setup on the event date at or
after 08:00 (the work-start clamp, never a 06:00 early-overtime instant), and
only for a start of exactly 08:00 is the result immune to the conflict
context (it is then always 08:00 on the event date). -/
theorem C1_amended (s : DateTime) (ctx : List EventData)
    (h1 : 120 ≤ s.mins) (h2 : s.mins ≤ 600) :
    dateOf (calculate_setup_time s ctx) = dateOf s ∧
    480 ≤ (calculate_setup_time s ctx).mins ∧
    calculate_setup_time s ctx ≠ withTime s 6 0 ∧
    (s.mins = 480 → calculate_setup_time s ctx = withTime s 8 0) := by
  have hpre := setupPre_early s h1 h2
  unfold calculate_setup_time
  rw [hpre]
  have hfold := conflictFold_early s h2 ctx (withTime s 8 0) (dateOf_withTime s 8 0)
    (by rw [mins_withTime])
  refine ⟨hfold.1, hfold.2, ?_, ?_⟩
  · intro heq
    have hge := hfold.2
    rw [heq, mins_withTime] at hge
    omega
  · intro h480
    exact conflictFold_frozen s h480 ctx

/-- Witness for C1_amended at the concrete 08:00 event of the spec's own
example, with a nonempty conflict context. -/
theorem C1_amended_witness :
    (120 ≤ (⟨2026, 1, 27, 480⟩ : DateTime).mins ∧ (⟨2026, 1, 27, 480⟩ : DateTime).mins ≤ 600) ∧
    (dateOf (calculate_setup_time ⟨2026, 1, 27, 480⟩ [oEarly]) = dateOf ⟨2026, 1, 27, 480⟩ ∧
     480 ≤ (calculate_setup_time ⟨2026, 1, 27, 480⟩ [oEarly]).mins ∧
     calculate_setup_time ⟨2026, 1, 27, 480⟩ [oEarly] ≠ withTime ⟨2026, 1, 27, 480⟩ 6 0 ∧
     ((⟨2026, 1, 27, 480⟩ : DateTime).mins = 480 →
       calculate_setup_time ⟨2026, 1, 27, 480⟩ [oEarly] = withTime ⟨2026, 1, 27, 480⟩ 8 0)) :=
  ⟨⟨by decide, by decide⟩, C1_amended ⟨2026, 1, 27, 480⟩ [oEarly] (by decide) (by decide)⟩

/-! ## Claim C2 -/

/-- Claim C2, counterexample.  An event ending 16:00 on Monday 2026-01-26
(weekday 0) with empty context has its breakdown at its own end instant on
the same day with no note — a concrete immediate breakdown, not a symbolic
next-day-morning marker; no late-threshold rule fires at 15:00–19:59. -/
theorem C2_cex :
    calculate_breakdown_time ⟨2026, 1, 26, 960⟩ [] = (⟨2026, 1, 26, 960⟩, "") ∧
    weekdayOf ⟨2026, 1, 26, 960⟩ = 0 ∧
    dateOf (calculate_breakdown_time ⟨2026, 1, 26, 960⟩ []).1 = dateOf ⟨2026, 1, 26, 960⟩ := by
  decide

/-- Claim C2, amended.  The only deferral rule in `calculate_breakdown_time`
fires at or after 20:00 and yields the concrete next calendar day at 10:00
(no symbolic marker, no weekend or setup-requirement exception); an event
ending before 20:00 whose context has no later same-day start — in
particular one ending 16:00 on any weekday — is broken down immediately at
its end instant. -/
theorem C2_amended (e : DateTime) (ctx : List EventData)
    (hq : ∀ o ∈ ctx, ¬ laterSameDay o e) :
    (20 ≤ hourOf e → calculate_breakdown_time e ctx = (withTime (addDays1 e) 10 0, "")) ∧
    (hourOf e < 20 → calculate_breakdown_time e ctx = (e, "")) := by
  constructor
  · intro h
    unfold calculate_breakdown_time
    rw [if_pos (show WORK_END ≤ hourOf e from h)]
  · intro h
    unfold calculate_breakdown_time
    rw [if_neg (show ¬ WORK_END ≤ hourOf e by unfold WORK_END; omega)]
    exact breakdownLoop_idle e ctx hq

/-- Witness for C2_amended at the Monday 16:00 event with empty context. -/
theorem C2_amended_witness :
    (∀ o ∈ ([] : List EventData), ¬ laterSameDay o (⟨2026, 1, 26, 960⟩ : DateTime)) ∧
    hourOf (⟨2026, 1, 26, 960⟩ : DateTime) < 20 ∧
    calculate_breakdown_time ⟨2026, 1, 26, 960⟩ [] = (⟨2026, 1, 26, 960⟩, "") :=
  ⟨by simp, by decide,
    (C2_amended ⟨2026, 1, 26, 960⟩ [] (by simp)).2 (by decide)⟩

/-! ## Helper lemmas about ingestion -/

/-- `parse_datetime` returns both components or neither. -/
theorem parse_datetime_pair (t : DTText) :
    (parse_datetime t).1.isSome = (parse_datetime t).2.isSome := by
  cases t <;> rfl

/-- Every event the first pass emits comes from a specific row, keeps that
row's index as its identity, carries that row's parse result as its times,
and that parse result has a non-null start. -/
theorem firstPassFrom_mem (rows : List RawRow) :
    ∀ (k : Nat) (e : EventData), e ∈ (firstPassFrom k rows).1 →
      ∃ j, j < rows.length ∧ e.idx = k + j ∧
        e.start_time = (parse_datetime (rows.getD j defRow).date_time).1 ∧
        e.end_time = (parse_datetime (rows.getD j defRow).date_time).2 ∧
        (parse_datetime (rows.getD j defRow).date_time).1.isSome := by
  induction rows with
  | nil =>
    intro k e h
    simp [firstPassFrom] at h
  | cons r rs ih =>
    intro k e h
    unfold firstPassFrom at h
    cases hp : (parse_datetime r.date_time).1 with
    | some st =>
      rw [hp] at h
      dsimp only at h
      rcases List.mem_cons.mp h with hhead | htail
      · refine ⟨0, by simp, ?_, ?_, ?_, ?_⟩ <;>
          simp [hhead, mkEvent, List.getD, hp]
      · obtain ⟨j, hj, hidx, hst, het, hsome⟩ := ih (k + 1) e htail
        exact ⟨j + 1, by simp only [List.length_cons]; omega, by omega,
          by simpa using hst, by simpa using het, by simpa using hsome⟩
    | none =>
      rw [hp] at h
      dsimp only at h
      obtain ⟨j, hj, hidx, hst, het, hsome⟩ := ih (k + 1) e h
      exact ⟨j + 1, by simp only [List.length_cons]; omega, by omega,
        by simpa using hst, by simpa using het, by simpa using hsome⟩

/-- The flagged list is a sublist of the all-events list. -/
theorem firstPassFrom_flag_mem (rows : List RawRow) :
    ∀ (k : Nat) (e : EventData), e ∈ (firstPassFrom k rows).2 →
      e ∈ (firstPassFrom k rows).1 := by
  induction rows with
  | nil =>
    intro k e h
    simp [firstPassFrom] at h
  | cons r rs ih =>
    intro k e h
    unfold firstPassFrom at h ⊢
    generalize (parse_datetime r.date_time).1 = p at h ⊢
    cases p with
    | some st =>
      dsimp only at h ⊢
      by_cases hf : flaggedYes r
      · rw [if_pos hf] at h
        rcases List.mem_cons.mp h with hhead | htail
        · exact List.mem_cons.mpr (Or.inl hhead)
        · exact List.mem_cons.mpr (Or.inr (ih (k + 1) e htail))
      · rw [if_neg hf] at h
        exact List.mem_cons.mpr (Or.inr (ih (k + 1) e h))
    | none =>
      exact ih (k + 1) e h

/-! ## Claim C3 -/

/-- Claim C3, counterexample.  A flagged row whose date/time text matches no
supported form parses to all-null times without raising, but the row is then
*dropped* at ingestion: it appears in neither the all-events list nor the
flagged list, so it is not retained with unknown timing and no warning is
surfaced for it. -/
theorem C3_cex :
    parse_datetime DTText.unmatchedText = (none, none) ∧
    flaggedYes rowBad = true ∧
    (firstPass [rowBad]).1 = [] ∧
    (firstPass [rowBad]).2 = [] := by
  decide

/-- Claim C3, amended.  Parsing that matches none of the supported forms
yields all-null time fields and is total (no exception), but the booking is
then excluded from the normalizer's output: no emitted event has the index of
a row whose parse produced a null start. -/
theorem C3_amended (rows : List RawRow) (i : Nat) (hi : i < rows.length)
    (hp : (parse_datetime (rows.getD i defRow).date_time).1 = none) :
    parse_datetime DTText.unmatchedText = (none, none) ∧
    (∀ e ∈ (firstPass rows).1, e.idx ≠ i) ∧
    (∀ e ∈ (firstPass rows).2, e.idx ≠ i) := by
  have hall : ∀ e ∈ (firstPass rows).1, e.idx ≠ i := by
    intro e he hidx
    obtain ⟨j, hj, hidx2, _, _, hsome⟩ := firstPassFrom_mem rows 0 e he
    have hji : j = i := by omega
    subst hji
    rw [hp] at hsome
    simp at hsome
  exact ⟨rfl, hall, fun e he => hall e (firstPassFrom_flag_mem rows 0 e he)⟩

/-- Witness for C3_amended on the one-row batch of the unparseable booking. -/
theorem C3_amended_witness :
    (0 < ([rowBad] : List RawRow).length ∧
      (parse_datetime (([rowBad] : List RawRow).getD 0 defRow).date_time).1 = none) ∧
    (parse_datetime DTText.unmatchedText = (none, none) ∧
     (∀ e ∈ (firstPass [rowBad]).1, e.idx ≠ 0) ∧
     (∀ e ∈ (firstPass [rowBad]).2, e.idx ≠ 0)) :=
  ⟨⟨by decide, by decide⟩, C3_amended [rowBad] 0 (by decide) (by decide)⟩

/-! ## Claim C10 -/

/-- Claim C10, confirmed.  Every event the normalizer emits — into the
all-events list or the flagged list — has non-null start and end instants:
date-only inputs parse to equal midnight instants rather than null times,
rows whose timing fails to parse are excluded at ingestion, and for events
with both instants present `generate_internal_notes` takes the normal branch,
so its could-not-parse error branch is unreachable for emitted events. -/
theorem C10_holds :
    (∀ rows : List RawRow, ∀ e ∈ (firstPass rows).1,
      e.start_time.isSome ∧ e.end_time.isSome) ∧
    (∀ rows : List RawRow, ∀ e ∈ (firstPass rows).2, e ∈ (firstPass rows).1) ∧
    (∀ y m d, parse_datetime (DTText.shortDate y m d) =
      (some ⟨y, m, d, 0⟩, some ⟨y, m, d, 0⟩)) ∧
    (∀ y m d, parse_datetime (DTText.longDate y m d) =
      (some ⟨y, m, d, 0⟩, some ⟨y, m, d, 0⟩)) ∧
    (∀ (e : EventData) (vc : String) (ctx : List EventData) (st et : DateTime),
      e.start_time = some st → e.end_time = some et →
      generate_internal_notes e vc ctx = notesBody e vc ctx st et) := by
  refine ⟨?_, ?_, fun y m d => rfl, fun y m d => rfl, ?_⟩
  · intro rows e he
    obtain ⟨j, hj, hidx, hst, het, hsome⟩ := firstPassFrom_mem rows 0 e he
    refine ⟨by rw [hst]; exact hsome, ?_⟩
    rw [het, ← parse_datetime_pair]
    exact hsome
  · intro rows e he
    exact firstPassFrom_flag_mem rows 0 e he
  · intro e vc ctx st et h1 h2
    unfold generate_internal_notes
    rw [h1, h2]

/-- Witness for C10_holds on a concrete one-row batch. -/
theorem C10_holds_witness :
    (mkEvent 0 rowGood (some ⟨2026, 1, 27, 540⟩) (some ⟨2026, 1, 27, 660⟩) ∈
      (firstPass [rowGood]).1) ∧
    ((mkEvent 0 rowGood (some ⟨2026, 1, 27, 540⟩)
        (some ⟨2026, 1, 27, 660⟩)).start_time.isSome ∧
     (mkEvent 0 rowGood (some ⟨2026, 1, 27, 540⟩)
        (some ⟨2026, 1, 27, 660⟩)).end_time.isSome) :=
  ⟨by decide, C10_holds.1 [rowGood]
    (mkEvent 0 rowGood (some ⟨2026, 1, 27, 540⟩) (some ⟨2026, 1, 27, 660⟩)) (by decide)⟩

/-! ## Claim C4 -/

/-- Claim C4, counterexample.  Two same-day events whose location texts
"Babbio 210" and "Babbio 210 Hall" both resolve to VenueCode BC210 do *not*
appear in each other's conflict context: the grouping key is the raw location
string, not the resolved code, so the context of the first event is empty
even though the claim demands it contain the second. -/
theorem C4_cex :
    get_venue_code evA4.location = "BC210" ∧
    get_venue_code evB4.location = "BC210" ∧
    (∀ s1 ∈ evA4.start_time, ∀ s2 ∈ evB4.start_time, dateOf s1 = dateOf s2) ∧
    evA4.idx ≠ evB4.idx ∧
    sameVenueEventsFor [evA4, evB4] evA4 = [] ∧
    sameVenueEventsFor [evA4, evB4] evB4 = [] := by
  decide

/-- Claim C4, amended.  The conflict context of an event is exactly the other
normalized events with the same *raw location text* and the same calendar
date (the `location_date` bucket key), excluded by identity — not by resolved
VenueCode; in particular two distinct bookings with identical recorded fields
do appear in each other's context. -/
theorem C4_amended (all : List EventData) (e1 e2 : EventData)
    (h1 : e1 ∈ all) (h2 : e2 ∈ all) (hidx : e2.idx ≠ e1.idx)
    (hloc : e2.location = e1.location)
    (st1 st2 : DateTime) (hs1 : e1.start_time = some st1) (hs2 : e2.start_time = some st2)
    (hiso : isoDate st2 = isoDate st1) :
    e2 ∈ sameVenueEventsFor all e1 ∧
    e1 ∈ sameVenueEventsFor all e2 ∧
    (∀ f, f ∈ sameVenueEventsFor all e1 ↔
      (f ∈ all ∧ venueKeyOf f = venueKeyOf e1 ∧ f.idx ≠ e1.idx)) := by
  have hkey : venueKeyOf e2 = venueKeyOf e1 := by
    unfold venueKeyOf
    rw [hs1, hs2, hloc]
    dsimp only
    rw [hiso]
  have hmem : ∀ f, f ∈ sameVenueEventsFor all f ∨ True := fun _ => Or.inr trivial
  refine ⟨?_, ?_, ?_⟩
  · simp only [sameVenueEventsFor, List.mem_filter, Bool.and_eq_true, beq_iff_eq,
      bne_iff_ne]
    exact ⟨h2, hkey, hidx⟩
  · simp only [sameVenueEventsFor, List.mem_filter, Bool.and_eq_true, beq_iff_eq,
      bne_iff_ne]
    exact ⟨h1, hkey.symm, fun hc => hidx hc.symm⟩
  · intro f
    simp only [sameVenueEventsFor, List.mem_filter, Bool.and_eq_true, beq_iff_eq,
      bne_iff_ne]

/-- Witness for C4_amended: two bookings with identical recorded fields and
distinct identities each appear in the other's context. -/
theorem C4_amended_witness :
    (evA4 ∈ [evA4, evD4] ∧ evD4 ∈ [evA4, evD4] ∧ evD4.idx ≠ evA4.idx ∧
      evD4.location = evA4.location) ∧
    (evD4 ∈ sameVenueEventsFor [evA4, evD4] evA4 ∧
     evA4 ∈ sameVenueEventsFor [evA4, evD4] evD4 ∧
     (∀ f, f ∈ sameVenueEventsFor [evA4, evD4] evA4 ↔
       (f ∈ [evA4, evD4] ∧ venueKeyOf f = venueKeyOf evA4 ∧ f.idx ≠ evA4.idx))) :=
  ⟨⟨by decide, by decide, by decide, by decide⟩,
    C4_amended [evA4, evD4] evA4 evD4 (by decide) (by decide) (by decide) (by decide)
      ⟨2026, 1, 27, 540⟩ ⟨2026, 1, 27, 540⟩ (by decide) (by decide) (by decide)⟩

/-! ## Claim C5 -/

/-- Claim C5, counterexample.  For a 14:00 event (computed setup 11:00) with a
neighbour ending 10:45 — within the 30-minute buffer before the chosen setup
instant — the generated note is byte-for-byte identical to the note generated
with an empty context: no back-to-back advisory of any kind is attached.  And
for a neighbour ending 13:30 — after the computed setup instant — the setup
instant itself *is* silently altered (to 13:45), contradicting "without
altering the computed setup instant". -/
theorem C5_cex :
    generate_internal_notes evExpo "BC210" [oNear] =
      generate_internal_notes evExpo "BC210" [] ∧
    calculate_setup_time ⟨2026, 1, 27, 840⟩ [oNear] = setupPre ⟨2026, 1, 27, 840⟩ ∧
    calculate_setup_time ⟨2026, 1, 27, 840⟩ [oAfter] = ⟨2026, 1, 27, 825⟩ ∧
    calculate_setup_time ⟨2026, 1, 27, 840⟩ [oAfter] ≠
      calculate_setup_time ⟨2026, 1, 27, 840⟩ [] := by
  decide

/-- Claim C5, amended.  `calculate_setup_time` produces no advisory channel at
all; instead, a context event with both times whose end lies on the event's
date strictly between the computed setup instant and the event start silently
*moves* the setup to that end plus 15 minutes, while a context event ending
at or before the computed setup instant (e.g. within the spec's buffer just
before it) leaves the setup unchanged. -/
theorem C5_amended (s : DateTime) (o : EventData) (oe os2 : DateTime)
    (he : o.end_time = some oe) (hs : o.start_time = some os2)
    (hd : dateOf oe = dateOf s) :
    (dtLt oe s → dtLt (setupPre s) oe →
      calculate_setup_time s [o] = addMinutes oe 15) ∧
    (¬ dtLt (setupPre s) oe → calculate_setup_time s [o] = setupPre s) := by
  constructor
  · intro hlt1 hlt2
    unfold calculate_setup_time
    simp only [List.foldl_cons, List.foldl_nil]
    unfold conflictStep
    rw [he, hs]
    dsimp only
    rw [if_pos ⟨hd, hlt1, hlt2⟩]
  · intro hnot
    unfold calculate_setup_time
    simp only [List.foldl_cons, List.foldl_nil]
    unfold conflictStep
    rw [he, hs]
    dsimp only
    rw [if_neg (fun hcond => hnot hcond.2.2)]

/-- Witness for C5_amended at the 14:00 event with the 13:30-ending
neighbour. -/
theorem C5_amended_witness :
    (oAfter.end_time = some ⟨2026, 1, 27, 810⟩ ∧
      dtLt (⟨2026, 1, 27, 810⟩ : DateTime) ⟨2026, 1, 27, 840⟩ ∧
      dtLt (setupPre ⟨2026, 1, 27, 840⟩) ⟨2026, 1, 27, 810⟩) ∧
    calculate_setup_time ⟨2026, 1, 27, 840⟩ [oAfter] =
      addMinutes ⟨2026, 1, 27, 810⟩ 15 :=
  ⟨⟨by decide, by decide, by decide⟩,
    (C5_amended ⟨2026, 1, 27, 840⟩ oAfter ⟨2026, 1, 27, 810⟩ ⟨2026, 1, 27, 540⟩
      (by decide) (by decide) (by decide)).1 (by decide) (by decide)⟩

/-! ## Claim C6 -/

/-- Claim C6, counterexample.  An event starting 14:00 whose conflict context
contains an event ending 12:15 receives setup at 12:30 — inside the
12:00–13:00 lunch-exclusion window and later than the 12:00 raw default —
because the conflict adjustment runs after the lunch adjustment. -/
theorem C6_cex :
    calculate_setup_time ⟨2026, 1, 27, 840⟩ [oLunch] = ⟨2026, 1, 27, 750⟩ ∧
    hourOf (calculate_setup_time ⟨2026, 1, 27, 840⟩ [oLunch]) = 12 ∧
    720 ≤ (calculate_setup_time ⟨2026, 1, 27, 840⟩ [oLunch]).mins ∧
    (calculate_setup_time ⟨2026, 1, 27, 840⟩ [oLunch]).mins < 780 := by
  decide

/-- Claim C6, amended.  Before the conflict scan the lunch rule holds exactly
as claimed: the pre-conflict setup never lies in hour 12; when the raw
two-hour default falls in hour 12 the setup becomes 11:00 on the same date,
which is never later than the raw default; and an event starting 14:00 with
an empty conflict context receives setup at 11:00.  Only a subsequent
conflict adjustment can move the setup into the lunch window. -/
theorem C6_amended (s : DateTime) (h1 : 120 ≤ s.mins) (h2 : s.mins < 1440) :
    hourOf (setupPre s) ≠ 12 ∧
    (hourOf (subMinutes s DEFAULT_SETUP_MINS) = 12 →
      setupPre s = withTime s 11 0 ∧
      (withTime s 11 0).mins ≤ (subMinutes s DEFAULT_SETUP_MINS).mins ∧
      dateOf (withTime s 11 0) = dateOf (subMinutes s DEFAULT_SETUP_MINS)) ∧
    (s.mins = 840 → calculate_setup_time s [] = withTime s 11 0) := by
  have hdm : DEFAULT_SETUP_MINS = 120 := by
    norm_num [DEFAULT_SETUP_MINS, DEFAULT_SETUP_HOURS]
  have hk : DEFAULT_SETUP_MINS ≤ s.mins := by omega
  have hsub : subMinutes s DEFAULT_SETUP_MINS =
      { s with mins := s.mins - DEFAULT_SETUP_MINS } := subMinutes_of_le hk
  have h11 : hourOf (withTime s 11 0) = 11 := by
    rw [hourOf_withTime]
  have hpre12 : hourOf (subMinutes s DEFAULT_SETUP_MINS) = 12 →
      setupPre s = withTime s 11 0 := by
    intro h12
    unfold setupPre
    rw [lunchAdjust_hour12 h12]
    have heq : withTime (subMinutes s DEFAULT_SETUP_MINS) 11 0 = withTime s 11 0 := by
      rw [hsub]
      rfl
    rw [heq]
    exact workClamp_of_mid _ (by omega) (by omega)
  refine ⟨?_, ?_, ?_⟩
  · exact workClamp_hour_ne12 _ (lunchAdjust_hour_ne12 _)
  · intro h12
    have hm12 : (s.mins - DEFAULT_SETUP_MINS) / 60 = 12 := by
      have h3 := h12
      rw [hsub] at h3
      simpa [hourOf, mins_mk] using h3
    refine ⟨hpre12 h12, ?_, ?_⟩
    · rw [hsub, mins_withTime]
      simp only [mins_mk]
      omega
    · rw [hsub]
      rfl
  · intro h840
    have h12 : hourOf (subMinutes s DEFAULT_SETUP_MINS) = 12 := by
      rw [hsub]
      simp only [hourOf, mins_mk, h840, hdm]
    unfold calculate_setup_time
    simp only [List.foldl_nil]
    exact hpre12 h12

/-- Witness for C6_amended at the spec's own 14:00 example. -/
theorem C6_amended_witness :
    (120 ≤ (⟨2026, 1, 27, 840⟩ : DateTime).mins ∧
      (⟨2026, 1, 27, 840⟩ : DateTime).mins < 1440) ∧
    (hourOf (setupPre ⟨2026, 1, 27, 840⟩) ≠ 12 ∧
     (hourOf (subMinutes ⟨2026, 1, 27, 840⟩ DEFAULT_SETUP_MINS) = 12 →
       setupPre ⟨2026, 1, 27, 840⟩ = withTime ⟨2026, 1, 27, 840⟩ 11 0 ∧
       (withTime (⟨2026, 1, 27, 840⟩ : DateTime) 11 0).mins ≤
         (subMinutes ⟨2026, 1, 27, 840⟩ DEFAULT_SETUP_MINS).mins ∧
       dateOf (withTime (⟨2026, 1, 27, 840⟩ : DateTime) 11 0) =
         dateOf (subMinutes ⟨2026, 1, 27, 840⟩ DEFAULT_SETUP_MINS)) ∧
     ((⟨2026, 1, 27, 840⟩ : DateTime).mins = 840 →
       calculate_setup_time ⟨2026, 1, 27, 840⟩ [] = withTime ⟨2026, 1, 27, 840⟩ 11 0)) :=
  ⟨⟨by decide, by decide⟩, C6_amended ⟨2026, 1, 27, 840⟩ (by decide) (by decide)⟩

/-! ## Claim C7 -/

/-- Claim C7, counterexample.  The three TechFlex sub-space rows share the
event identity (name "Gala", date 2026-01-27) but the Space C row has a
different time range; presenting the rows in a different permutation changes
which row becomes the merged booking's representative, and the merged note
changes (reservation number 0127UCCABCAM versus 0127UCCABCPM) — the merge is
not commutative in input order. -/
theorem C7_cex :
    List.Perm [cRowC, cRowB, cRowA] [cRowA, cRowB, cRowC] ∧
    (processCsv [cRowC, cRowB, cRowA]).1 ≠ (processCsv [cRowA, cRowB, cRowC]).1 ∧
    (processCsv [cRowA, cRowB, cRowC]).1.length = 1 ∧
    (processCsv [cRowC, cRowB, cRowA]).1.length = 1 := by
  refine ⟨by decide, by decide, by decide, by decide⟩

/-- Claim C7, amended.  Combined-booking detection is computed from the full
raw set (all three sub-space rows merge into one UCCABC note even when only
the Space A row is flagged for processing, and the output equals the
all-flagged output), and presenting only two of the three sub-spaces yields
two unmerged individual notes; permuting the three rows yields an identical
merged note when the rows agree on every field other than location, but in
general (see the counterexample) the merged event inherits the first flagged
row's fields, so the merge is commutative only up to those fields. -/
theorem C7_amended :
    (processCsv [iRowA, iRowC, iRowB]).1 = (processCsv [iRowA, iRowB, iRowC]).1 ∧
    (processCsv [iRowB, iRowA, iRowC]).1 = (processCsv [iRowA, iRowB, iRowC]).1 ∧
    (processCsv [iRowB, iRowC, iRowA]).1 = (processCsv [iRowA, iRowB, iRowC]).1 ∧
    (processCsv [iRowC, iRowA, iRowB]).1 = (processCsv [iRowA, iRowB, iRowC]).1 ∧
    (processCsv [iRowC, iRowB, iRowA]).1 = (processCsv [iRowA, iRowB, iRowC]).1 ∧
    (processCsv [iRowA, iRowBN, iRowCN]).1 = (processCsv [iRowA, iRowB, iRowC]).1 ∧
    (processCsv [iRowA, iRowB, iRowC]).1.length = 1 ∧
    (processCsv [iRowA, iRowB]).1.length = 2 := by
  refine ⟨by decide, by decide, by decide, by decide, by decide, by decide, by decide,
    by decide⟩

/-! ## Claim C8 -/

/-- Claim C8, counterexample.  In a batch with two combined TechFlex bookings
on the same date ("X Gala" represented by its Space B row, then "Y Gala"),
evaluating the per-event decisions in the batch order versus evaluating the
"Y Gala" events first yields *different* notes for event index 3 (the Y
representative): processing "X Gala" first rewrites its representative's
location in shared state, which reorders the context "Y Gala" later reads,
moving Y's setup from 12:15 to 12:25.  Decision evaluation is not read-only
over a fixed snapshot. -/
theorem C8_cex :
    List.Perm [0, 1, 2, 3, 4, 5] [3, 4, 5, 0, 1, 2] ∧
    List.lookup 3 (processLoop aeC8 [0, 1, 2, 3, 4, 5]) ≠
      List.lookup 3 (processLoop aeC8 [3, 4, 5, 0, 1, 2]) := by
  refine ⟨by decide, by decide⟩

/-- With no combined bookings detected, every loop iteration takes the
read-only branch: the state is never written and each processed index
contributes a note computed purely from the pristine snapshot. -/
theorem foldlPure (ae : List EventData) (groups : List (String × List EventData)) :
    ∀ (order : List Nat) (S : LoopSt), S.evs = ae →
      order.foldl (fun S2 i => stepBody ae groups [] i S2) S =
      { evs := S.evs, done := S.done,
        out := S.out ++ order.map (fun i => (i, elseNote ae ae i)) } := by
  intro order
  induction order with
  | nil => intro S hS; simp
  | cons i rest ih =>
    intro S hS
    simp only [List.foldl_cons, List.map_cons]
    rw [show stepBody ae groups [] i S =
      { S with out := S.out ++ [(i, elseNote ae S.evs i)] } from rfl]
    rw [hS]
    rw [ih _ rfl]
    simp

theorem processLoop_noComb (ae : List EventData)
    (h : detect_techflex_abc_booking ae = []) (order : List Nat) :
    processLoop ae order = order.map (fun i => (i, elseNote ae ae i)) := by
  unfold processLoop
  rw [h]
  simp only [List.map_nil]
  rw [foldlPure ae [] order ⟨ae, [], []⟩ rfl]
  simp

theorem lookup_map_pair (f : Nat → String) (i : Nat) :
    ∀ order : List Nat, List.lookup i (order.map (fun j => (j, f j))) =
      if i ∈ order then some (f i) else none := by
  intro order
  induction order with
  | nil => simp [List.lookup]
  | cons j rest ih =>
    simp only [List.map_cons, List.lookup, List.mem_cons]
    by_cases hij : i = j
    · subst hij
      simp
    · have hb : (i == j) = false := beq_eq_false_iff_ne.mpr hij
      simp [hb, hij, ih]

/-- Claim C8, amended.  For batches in which no combined TechFlex booking is
detected, the per-event decision computation is read-only over the prebuilt
snapshot: evaluating the events' decisions in any order yields the identical
note for every event index.  (With combined bookings present the loop writes
shared state that later context construction reads — see the
counterexample.) -/
theorem C8_amended (ae : List EventData) (o1 o2 : List Nat)
    (hperm : o1.Perm o2) (hnc : detect_techflex_abc_booking ae = []) (i : Nat) :
    List.lookup i (processLoop ae o1) = List.lookup i (processLoop ae o2) := by
  rw [processLoop_noComb ae hnc o1, processLoop_noComb ae hnc o2,
    lookup_map_pair _ i o1, lookup_map_pair _ i o2]
  by_cases hm : i ∈ o1
  · rw [if_pos hm, if_pos (hperm.mem_iff.mp hm)]
  · rw [if_neg hm, if_neg fun hc => hm (hperm.mem_iff.mpr hc)]

/-- Witness for C8_amended on a two-event Babbio batch with the two possible
evaluation orders. -/
theorem C8_amended_witness :
    List.Perm [0, 1] [1, 0] ∧
    detect_techflex_abc_booking [evW0, evW1] = [] ∧
    List.lookup 0 (processLoop [evW0, evW1] [0, 1]) =
      List.lookup 0 (processLoop [evW0, evW1] [1, 0]) :=
  ⟨by decide, by decide,
    C8_amended [evW0, evW1] [0, 1] [1, 0] (by decide) (by decide) 0⟩

/-! ## Claim C9 -/

/-- Claim C9, confirmed.  The derived reservation identifier is exactly the
fixed template: two-digit month, two-digit day, venue code, then "AM" when
the start instant precedes noon and "PM" otherwise, with no separators; the
spec's literal example — March 3, venue code "UCCG", 09:00 start — produces
`0303UCCGAM`. -/
theorem C9_holds :
    (∀ (d : DateTime) (vc : String) (s : DateTime),
      generate_reservation_number d vc s = specReservationIdentifier d vc s) ∧
    generate_reservation_number ⟨2026, 3, 3, 540⟩ "UCCG" ⟨2026, 3, 3, 540⟩ = "0303UCCGAM" ∧
    (∀ s : DateTime, get_am_pm s = "AM" ↔ s.mins < 720) := by
  have hampm : ∀ s : DateTime, get_am_pm s = (if s.mins < 720 then "AM" else "PM") := by
    intro s
    unfold get_am_pm hourOf
    by_cases h : s.mins < 720
    · rw [if_pos (by omega), if_pos h]
    · rw [if_neg (by omega), if_neg h]
  refine ⟨?_, by decide, ?_⟩
  · intro d vc s
    unfold generate_reservation_number specReservationIdentifier
    rw [hampm]
  · intro s
    rw [hampm]
    by_cases h : s.mins < 720
    · rw [if_pos h]
      exact ⟨fun _ => h, fun _ => rfl⟩
    · rw [if_neg h]
      exact ⟨fun hc => absurd hc (by decide), fun hlt => absurd hlt h⟩

end InternalNotes
